import Mathlib

/-!
Verification development for the exam-monitoring extension.

The background service worker keeps a per-student infraction ledger in
extension storage and enforces a warn-then-block policy; the content
script runs the signal detectors (face presence, audio, multi-monitor,
warning overlay rate limiting).  This file embeds those operations as
executable Lean functions and proves the stated properties about them.

Storage objects keyed by student id are modelled as association lists
over `String` keys; JS object field update and delete become `setKey`
and `eraseKey`.  Timestamps are modelled as natural numbers.
-/

/-- First value bound to key `k` in an association list, like `obj[k]`. -/
def lookupKey (k : String) : List (String × α) → Option α
  | [] => none
  | (k', v) :: rest => if k' = k then some v else lookupKey k rest

/-- Bind key `k` to `v`, replacing an existing binding, like `obj[k] = v`. -/
def setKey (k : String) (v : α) : List (String × α) → List (String × α)
  | [] => [(k, v)]
  | (k', v') :: rest => if k' = k then (k, v) :: rest else (k', v') :: setKey k v rest

/-- Remove every binding of key `k`, like `delete obj[k]`. -/
def eraseKey (k : String) : List (String × α) → List (String × α)
  | [] => []
  | (k', v) :: rest => if k' = k then eraseKey k rest else (k', v) :: eraseKey k rest

/-- The last `n` elements of a list, like `arr.slice(-n)`. -/
def lastN (n : Nat) (l : List α) : List α := l.drop (l.length - n)

/-! ## Ledger data model (background.js) -/

/-- One recorded infraction, as pushed onto `infractions[studentId].events`. -/
structure InfractionEvent where
  type : String
  severity : Nat
  message : String
  details : String
  time : Nat
  page : String
deriving Repr, DecidableEq

/-- Per-student ledger entry: `{ count, events, warnings }`. -/
structure IdentityRecord where
  count : Nat
  warnings : Nat
  events : List InfractionEvent
deriving Repr, DecidableEq

/-- Entry of `blockedIds`, created on the block transition. -/
structure BlockRecord where
  blockedAt : Nat
  reason : String
  totalInfractions : Nat
  lastEvents : List InfractionEvent
deriving Repr, DecidableEq

/-- The two top-level storage maps of the extension. -/
structure Storage where
  infractions : List (String × IdentityRecord)
  blockedIds : List (String × BlockRecord)
deriving Repr, DecidableEq

/-- A `recordInfraction` message from a content script. -/
structure InfractionRequest where
  studentId : String
  infractionType : String
  details : String
  page : String
  now : Nat
deriving Repr, DecidableEq

/-- Responses sent back over the message channel by the background handler. -/
inductive RecordResponse where
  | noId : RecordResponse
  | alreadyBlocked : RecordResponse
  | warned : Nat → Nat → String → RecordResponse
  | blocked : Nat → Nat → String → String → RecordResponse
deriving Repr, DecidableEq

def INFRACTION_THRESHOLD : Nat := 2

/-- Severity and message table `INFRACTION_TYPES` from background.js. -/
def INFRACTION_TYPES (t : String) : Option (Nat × String) :=
  if t = "TAB_SWITCH" then some (3, "Tab switching detected")
  else if t = "WINDOW_BLUR" then some (2, "Window lost focus")
  else if t = "CAMERA_OFF" then some (5, "Camera turned off")
  else if t = "NO_FACE" then some (4, "Face not detected in camera")
  else if t = "MULTIPLE_FACES" then some (5, "Multiple faces detected")
  else if t = "EYE_MOVEMENT" then some (3, "Suspicious eye movements detected")
  else if t = "AUDIO_DETECTED" then some (3, "Background audio/conversation detected")
  else if t = "COPY_PASTE" then some (4, "Copy/paste attempt blocked")
  else if t = "NAVIGATION" then some (5, "Navigation attempt blocked")
  else if t = "NEW_TAB" then some (5, "New tab/window attempt blocked")
  else if t = "EXTERNAL_APP" then some (5, "Unauthorized application detected")
  else if t = "SCREEN_SHARE" then some (5, "Screen sharing software detected")
  else if t = "MULTIPLE_MONITORS" then some (5, "Multiple monitors detected")
  else if t = "REMOTE_DESKTOP" then some (5, "Remote desktop access detected")
  else none

/-- Severity and message for a type, defaulting to severity 1 and the
unknown-infraction message like the `||` fallback in the handler. -/
def infractionInfo (t : String) : Nat × String :=
  (INFRACTION_TYPES t).getD (1, "Unknown infraction")

/-- The event object pushed by the handler for a request. -/
def mkEvent (r : InfractionRequest) : InfractionEvent :=
  { type := r.infractionType
    severity := (infractionInfo r.infractionType).1
    message := (infractionInfo r.infractionType).2
    details := r.details
    time := r.now
    page := r.page }

/-- The `recordInfraction` branch of the background message handler:
reject on missing id, reject when already blocked, otherwise append the
event, bump `count` and `warnings`, and block once `warnings` exceeds
`INFRACTION_THRESHOLD`. -/
def recordInfraction (st : Storage) (r : InfractionRequest) : Storage × RecordResponse :=
  if r.studentId = "" then (st, RecordResponse.noId)
  else
    match lookupKey r.studentId st.blockedIds with
    | some _ => (st, RecordResponse.alreadyBlocked)
    | none =>
      let rec0 := (lookupKey r.studentId st.infractions).getD ⟨0, 0, []⟩
      let info := infractionInfo r.infractionType
      let rec1 : IdentityRecord :=
        ⟨rec0.count + 1, rec0.warnings + 1, rec0.events ++ [mkEvent r]⟩
      let infractions1 := setKey r.studentId rec1 st.infractions
      if rec1.warnings > INFRACTION_THRESHOLD then
        let br : BlockRecord :=
          ⟨r.now, "Exceeded infraction threshold", rec1.count, lastN 5 rec1.events⟩
        (⟨infractions1, setKey r.studentId br st.blockedIds⟩,
          RecordResponse.blocked rec1.count rec1.warnings info.2 br.reason)
      else
        (⟨infractions1, st.blockedIds⟩,
          RecordResponse.warned rec1.count rec1.warnings info.2)

/-- The `unblockId` branch: delete the block record and zero the counters
of the infraction record when present; always answers ok. -/
def unblockId (st : Storage) (studentId : String) : Storage × Bool :=
  let blockedIds1 := eraseKey studentId st.blockedIds
  let infractions1 :=
    match lookupKey studentId st.infractions with
    | some rec0 => setKey studentId ⟨0, 0, rec0.events⟩ st.infractions
    | none => st.infractions
  (⟨infractions1, blockedIds1⟩, true)

/-- Run a list of requests through the handler in order. -/
def runRecord (st : Storage) : List InfractionRequest → Storage × List RecordResponse
  | [] => (st, [])
  | r :: rs =>
    let step := recordInfraction st r
    let rest := runRecord step.1 rs
    (rest.1, step.2 :: rest.2)

/-- A response whose `ok` field is true (the request was recorded). -/
def accepted : RecordResponse → Bool
  | RecordResponse.noId => false
  | RecordResponse.alreadyBlocked => false
  | RecordResponse.warned _ _ _ => true
  | RecordResponse.blocked _ _ _ _ => true

/-- Blocked status of an identity, like `isBlocked` answering on
`blockedIds[studentId]`. -/
def isBlockedIn (st : Storage) (s : String) : Bool :=
  (lookupKey s st.blockedIds).isSome

/-- Ledger record of an identity, empty when absent (matching how the
handler initializes and how readers default missing records to zero). -/
def recordOf (st : Storage) (s : String) : IdentityRecord :=
  (lookupKey s st.infractions).getD ⟨0, 0, []⟩

def warningsOf (st : Storage) (s : String) : Nat := (recordOf st s).warnings

def countOf (st : Storage) (s : String) : Nat := (recordOf st s).count

def eventsOf (st : Storage) (s : String) : List InfractionEvent := (recordOf st s).events

/-! ## Warning overlay rate limiting (content.js) -/

/-- One call to `showWarningOverlay` at time `now` with the stored
`lastWarningTime`: returns whether the notice is displayed and the new
`lastWarningTime`.  The JS guard returns early when `now - lastWarningTime`
is below 1000; natural subtraction matches the JS signed subtraction here
because a negative difference also falls below 1000. -/
def showWarningStep (lastWarningTime now : Nat) : Bool × Nat :=
  if now - lastWarningTime < 1000 then (false, lastWarningTime) else (true, now)

/-- Times at which a notice is actually displayed over a sequence of
`showWarningOverlay` calls. -/
def overlayDisplays : Nat → List Nat → List Nat
  | _, [] => []
  | last, t :: ts =>
    let step := showWarningStep last t
    if step.1 then t :: overlayDisplays step.2 ts else overlayDisplays step.2 ts

/-- The content-script `recordInfraction` pipeline over a list of
infraction occurrence times: each infraction unconditionally submits one
request, and the warned response then attempts a rate-limited overlay.
Returns the number of submitted requests and the displayed notice times. -/
def contentInfractionRun : Nat → List Nat → Nat × List Nat
  | _, [] => (0, [])
  | last, t :: ts =>
    let step := showWarningStep last t
    let rest := contentInfractionRun step.2 ts
    (rest.1 + 1, if step.1 then t :: rest.2 else rest.2)

/-! ## Face-presence heuristic (content.js) -/

/-- A captured video frame: dimensions plus the flat RGBA byte array
`imageData.data`, addressed as `data ((y * width + x) * 4 + channel)`. -/
structure Frame where
  width : Nat
  height : Nat
  data : Nat → Nat

/-- The skin-likeness pixel test of `detectFaceInImageData`. -/
def skinLike (r g b : Nat) : Bool :=
  decide (r > 95 ∧ g > 40 ∧ b > 20 ∧ r > g ∧ r > b ∧
    (if g ≤ r then r - g else g - r) > 15)

/-- Skin and total pixel counts over the square centered on the frame
with the given half-side, with the same in-bounds guard as the JS loops.
The JS loop indices run from center minus half to center plus half; the
lower bounds are nonnegative whenever half is at most a quarter of each
dimension, which holds for every call in this file, so natural-number
offsets coincide with the JS indices. -/
def regionCounts (fr : Frame) (half : Nat) : Nat × Nat :=
  let cx := fr.width / 2
  let cy := fr.height / 2
  (List.range (2 * half)).foldl (fun acc dy =>
    (List.range (2 * half)).foldl (fun acc2 dx =>
      let y := cy - half + dy
      let x := cx - half + dx
      if x < fr.width ∧ y < fr.height then
        let i := (y * fr.width + x) * 4
        let skin := skinLike (fr.data i) (fr.data (i + 1)) (fr.data (i + 2))
        ((if skin then acc2.1 + 1 else acc2.1), acc2.2 + 1)
      else acc2) acc) (0, 0)

/-- `detectFaceInImageData`: skin fraction over the sampled region
strictly above 0.1.  `regionSize` is `min(width, height) / 4` and is used
as the half-side of the sampled square.  The JS float comparison
`skinPixels / totalPixels > 0.1` is rendered as the exact integer
comparison `10 * skinPixels > totalPixels`: the float division and the
literal 0.1 round to equal doubles exactly when the rational values are
equal, the counts are far too small for rounding to cross the strict
inequality otherwise, and a zero total gives NaN in JS, false on both
sides. -/
def detectFaceInImageData (fr : Frame) : Bool :=
  let regionSize := min fr.width fr.height / 4
  let cnt := regionCounts fr regionSize
  decide (10 * cnt.1 > cnt.2)

/-- Modelled from the spec: the spec describes the sampled square by its
side length, so this classifier samples a centered square of side `s`
(half-side `s / 2`) and reports the no-face outcome, skin fraction at
most 0.1, rendered as the exact integer comparison.  Used to compare the
stated sampling region against the code. -/
def specNoFaceSide (fr : Frame) (s : Nat) : Bool :=
  let cnt := regionCounts fr (s / 2)
  decide (10 * cnt.1 ≤ cnt.2)

/-- One tick of the face-check interval in `startFaceDetection`: given the
`consecutiveNoFace` counter and a frame, returns the new counter and
whether a NO_FACE infraction is emitted. -/
def faceStep (c : Nat) (fr : Frame) : Nat × Bool :=
  if detectFaceInImageData fr then (0, false)
  else if c + 1 ≥ 3 then (0, true)
  else (c + 1, false)

/-- Fold the face-check tick over a list of frames, counting emitted
NO_FACE infractions; returns the final counter and the emission count. -/
def faceRun : Nat → List Frame → Nat × Nat
  | c, [] => (c, 0)
  | c, fr :: rest =>
    let step := faceStep c fr
    let after := faceRun step.1 rest
    (after.1, (if step.2 then 1 else 0) + after.2)

/-! ## Audio heuristic (content.js) -/

/-- The threshold test of `startAudioMonitoring`: the analyser has
`fftSize` 256, hence `bufferLength` 128 bins, and the code compares
`sum / 128 > 30`.  Division by the power of two 128 is exact in floats,
so the test is the exact integer comparison `sum > 30 * 128`. -/
def audioLoud (buf : List Nat) : Bool := decide (buf.sum > 30 * 128)

/-- One tick of the audio-check interval in `startAudioMonitoring`: given
the `consecutiveNoise` counter and a buffer, returns the new counter and
whether an AUDIO_DETECTED infraction is emitted. -/
def audioStep (c : Nat) (buf : List Nat) : Nat × Bool :=
  if audioLoud buf then
    if c + 1 ≥ 3 then (0, true) else (c + 1, false)
  else (0, false)

/-- Fold the audio tick over a list of buffers, counting emitted
AUDIO_DETECTED infractions. -/
def audioRun : Nat → List (List Nat) → Nat × Nat
  | c, [] => (c, 0)
  | c, buf :: rest =>
    let step := audioStep c buf
    let after := audioRun step.1 rest
    (after.1, (if step.2 then 1 else 0) + after.2)

/-- The monitoring session of `startAudioMonitoring`: without an audio
track nothing is installed; when building the audio graph throws, the
catch swallows the error and no interval runs; otherwise the tick
processes every buffer.  Returns the number of AUDIO_DETECTED events. -/
def audioMonitoringEvents (hasTrack ctxThrows : Bool) (bufs : List (List Nat)) : Nat :=
  if !hasTrack then 0
  else if ctxThrows then 0
  else (audioRun 0 bufs).2

/-! ## Multi-monitor heuristic (content.js) -/

/-- Inputs read by `detectMultipleMonitors` from the window and screen
objects.  `screenDetails` is the outcome of `getScreenDetails` (screen
count, or an exception caught by the inner catch); `throws` models any
exception out of the main body, handled by the outer catch. -/
structure MonitorEnv where
  screenWidth : Nat
  screenHeight : Nat
  screenX : Int
  screenY : Int
  hasIsExtended : Bool
  isExtended : Bool
  hasGetScreenDetails : Bool
  screenDetails : Except Unit Nat
  throws : Bool

/-- Result of a monitor check: the detected flag plus the reason carried
by a positive result. -/
structure MonitorResult where
  detected : Bool
  reason : Option String
deriving Repr, DecidableEq

/-- The try-block body of `detectMultipleMonitors`, checking the signals
in source order with the first positive signal returning immediately.
The JS aspect test `screenWidth / screenHeight > 2.5` is the exact
integer comparison `2 * screenWidth > 5 * screenHeight`: a zero height
gives Infinity in JS for a positive width (true on both sides) and NaN
for a zero width (false on both sides). -/
def detectMultipleMonitorsBody (env : MonitorEnv) : MonitorResult :=
  if 2 * env.screenWidth > 5 * env.screenHeight then
    ⟨true, some ("Ultra-wide display detected (possible multiple monitors)")⟩
  else if env.screenX < -100 ∨ env.screenY < -100 ∨
      env.screenX > (env.screenWidth : Int) + 100 ∨
      env.screenY > (env.screenHeight : Int) + 100 then
    ⟨true, some ("Window positioned outside primary screen bounds")⟩
  else if env.hasIsExtended && env.isExtended then
    ⟨true, some ("Extended display mode detected via Screen Details API")⟩
  else if env.hasGetScreenDetails then
    match env.screenDetails with
    | Except.ok n =>
      if n > 1 then
        ⟨true, some ("Multiple displays detected: " ++ toString n ++ " screens")⟩
      else ⟨false, none⟩
    | Except.error _ => ⟨false, none⟩
  else ⟨false, none⟩

/-- `detectMultipleMonitors` with its outer catch: any exception from the
body is logged and yields a non-detection. -/
def detectMultipleMonitors (env : MonitorEnv) : MonitorResult :=
  if env.throws then ⟨false, none⟩ else detectMultipleMonitorsBody env

/-- The periodic check in `startMonitorDetection`: a MULTIPLE_MONITORS
infraction is recorded exactly when the check reports a detection. -/
def monitorCheckInfractions (env : MonitorEnv) : List String :=
  let result := detectMultipleMonitors env
  if result.detected then [(result.reason.getD "")] else []

/-! ## Concrete inputs used by witnesses and counterexamples -/

def stEmpty : Storage := ⟨[], []⟩

/-- A tab-switch request from student s1 at time `n`. -/
def reqTab (n : Nat) : InfractionRequest := ⟨"s1", "TAB_SWITCH", "", "page", n⟩

/-- Three requests against a fresh identity. -/
def reqs3 : List InfractionRequest := [reqTab 1, reqTab 2, reqTab 3]

/-- Two requests against a fresh identity. -/
def reqs2 : List InfractionRequest := [reqTab 1, reqTab 2]

/-- A storage where s1 is Active with one recorded infraction. -/
def stActiveOne : Storage :=
  ⟨[("s1", ⟨1, 1, [mkEvent (reqTab 1)]⟩)], []⟩

/-- A storage where s1 is Active with two warnings, one short of a block. -/
def stWarn2 : Storage :=
  ⟨[("s1", ⟨2, 2, [mkEvent (reqTab 1), mkEvent (reqTab 2)]⟩)], []⟩

/-- A storage where s1 is Blocked and s2 is Active with one infraction. -/
def stBlockedOne : Storage :=
  ⟨[("s1", ⟨3, 3, [mkEvent (reqTab 1)]⟩), ("s2", ⟨1, 1, [mkEvent (reqTab 2)]⟩)],
   [("s1", ⟨9, "Exceeded infraction threshold", 3, [mkEvent (reqTab 1)]⟩)]⟩

/-- Pixel data of an 8 by 8 frame with a skin-toned column at x = 2,
y in 2..4, inside the sampled square of the code but outside a centered
square of side 2. -/
def ceFaceData (i : Nat) : Nat :=
  let p := i / 4
  let c := i % 4
  let x := p % 8
  let y := p / 8
  if x = 2 ∧ 2 ≤ y ∧ y ≤ 4 then
    if c = 0 then 150 else if c = 1 then 100 else if c = 2 then 60 else 255
  else 0

def ceFaceFrame : Frame := ⟨8, 8, ceFaceData⟩

/-- An 8 by 8 frame of black pixels: no skin anywhere. -/
def blankFrame : Frame := ⟨8, 8, fun _ => 0⟩

/-- An 8 by 8 frame of skin-toned pixels everywhere. -/
def skinFrame : Frame :=
  ⟨8, 8, fun i =>
    if i % 4 = 0 then 150 else if i % 4 = 1 then 100 else
    if i % 4 = 2 then 60 else 255⟩

/-- A 128-bin buffer with mean magnitude 31. -/
def buf31 : List Nat := List.replicate 128 31

/-- A 128-bin buffer with mean magnitude 29. -/
def buf29 : List Nat := List.replicate 128 29

/-- A display report with aspect 3.0. -/
def envUltraWide : MonitorEnv :=
  ⟨3000, 1000, 0, 0, false, false, false, Except.ok 1, false⟩

/-- A display report with aspect 1.78, in-bounds window position, no
extended flag and a single enumerated screen. -/
def envNormal : MonitorEnv :=
  ⟨1780, 1000, 0, 0, false, false, true, Except.ok 1, false⟩

/-- An environment whose monitor-check body throws. -/
def envThrowing : MonitorEnv :=
  ⟨1780, 1000, 0, 0, false, false, false, Except.ok 1, true⟩

/-- An environment where only the screen enumeration throws. -/
def envEnumThrows : MonitorEnv :=
  ⟨1780, 1000, 0, 0, false, false, true, Except.error (), false⟩

/-! ## Association-list lemmas -/

theorem lookupKey_setKey_self (k : String) (v : α) (l : List (String × α)) :
    lookupKey k (setKey k v l) = some v := by
  induction l with
  | nil => simp [setKey, lookupKey]
  | cons hd tl ih =>
    obtain ⟨k', v'⟩ := hd
    by_cases h : k' = k
    · simp [setKey, lookupKey, h]
    · simp [setKey, lookupKey, h, ih]

theorem lookupKey_setKey_ne (k k' : String) (v : α) (l : List (String × α))
    (hne : k' ≠ k) : lookupKey k' (setKey k v l) = lookupKey k' l := by
  have hne' : k ≠ k' := Ne.symm hne
  induction l with
  | nil => simp [setKey, lookupKey, hne']
  | cons hd tl ih =>
    obtain ⟨k0, v0⟩ := hd
    by_cases h : k0 = k
    · subst h
      simp [setKey, lookupKey, hne']
    · by_cases h2 : k0 = k'
      · simp [setKey, lookupKey, h, h2, hne]
      · simp [setKey, lookupKey, h, h2, ih]

theorem lookupKey_eraseKey_self (k : String) (l : List (String × α)) :
    lookupKey k (eraseKey k l) = none := by
  induction l with
  | nil => simp [eraseKey, lookupKey]
  | cons hd tl ih =>
    obtain ⟨k0, v0⟩ := hd
    by_cases h : k0 = k
    · simp [eraseKey, h, ih]
    · simp [eraseKey, lookupKey, h, ih]

theorem lookupKey_eraseKey_ne (k k' : String) (l : List (String × α))
    (hne : k' ≠ k) : lookupKey k' (eraseKey k l) = lookupKey k' l := by
  have hne' : k ≠ k' := Ne.symm hne
  induction l with
  | nil => simp [eraseKey]
  | cons hd tl ih =>
    obtain ⟨k0, v0⟩ := hd
    by_cases h : k0 = k
    · subst h
      simp [eraseKey, lookupKey, hne', ih]
    · simp [eraseKey, lookupKey, h, ih]

theorem eraseKey_of_lookupKey_none (k : String) (l : List (String × α))
    (h : lookupKey k l = none) : eraseKey k l = l := by
  induction l with
  | nil => simp [eraseKey]
  | cons hd tl ih =>
    obtain ⟨k0, v0⟩ := hd
    by_cases hk : k0 = k
    · simp [lookupKey, hk] at h
    · simp [lookupKey, hk] at h
      simp [eraseKey, hk, ih h]

theorem setKey_of_lookupKey_eq (k : String) (v : α) (l : List (String × α))
    (h : lookupKey k l = some v) : setKey k v l = l := by
  induction l with
  | nil => simp [lookupKey] at h
  | cons hd tl ih =>
    obtain ⟨k0, v0⟩ := hd
    by_cases hk : k0 = k
    · subst hk
      simp [lookupKey] at h
      simp [setKey, h]
    · simp [lookupKey, hk] at h
      simp [setKey, hk, ih h]

/-! ## Ledger step lemmas -/

theorem isBlockedIn_eq_false_iff (st : Storage) (s : String) :
    isBlockedIn st s = false ↔ lookupKey s st.blockedIds = none := by
  unfold isBlockedIn
  cases lookupKey s st.blockedIds <;> simp

theorem recordInfraction_of_blocked (st : Storage) (r : InfractionRequest)
    (hs : r.studentId ≠ "") (hb : isBlockedIn st r.studentId = true) :
    recordInfraction st r = (st, RecordResponse.alreadyBlocked) := by
  unfold recordInfraction
  rcases hlk : lookupKey r.studentId st.blockedIds with _ | b
  · rw [isBlockedIn, hlk] at hb
    simp at hb
  · simp [hs, hlk]

theorem recordInfraction_of_not_blocked (st : Storage) (r : InfractionRequest)
    (hs : r.studentId ≠ "") (hb : isBlockedIn st r.studentId = false) :
    recordInfraction st r =
      if warningsOf st r.studentId + 1 > INFRACTION_THRESHOLD then
        (⟨setKey r.studentId
            ⟨countOf st r.studentId + 1, warningsOf st r.studentId + 1,
             eventsOf st r.studentId ++ [mkEvent r]⟩ st.infractions,
          setKey r.studentId
            ⟨r.now, "Exceeded infraction threshold", countOf st r.studentId + 1,
             lastN 5 (eventsOf st r.studentId ++ [mkEvent r])⟩ st.blockedIds⟩,
         RecordResponse.blocked (countOf st r.studentId + 1)
           (warningsOf st r.studentId + 1)
           (infractionInfo r.infractionType).2 ("Exceeded infraction threshold"))
      else
        (⟨setKey r.studentId
            ⟨countOf st r.studentId + 1, warningsOf st r.studentId + 1,
             eventsOf st r.studentId ++ [mkEvent r]⟩ st.infractions,
          st.blockedIds⟩,
         RecordResponse.warned (countOf st r.studentId + 1)
           (warningsOf st r.studentId + 1)
           (infractionInfo r.infractionType).2) := by
  have hlk : lookupKey r.studentId st.blockedIds = none :=
    (isBlockedIn_eq_false_iff st r.studentId).mp hb
  unfold recordInfraction
  rw [if_neg hs, hlk]
  rfl

theorem runRecord_nil (st : Storage) : runRecord st [] = (st, []) := rfl

theorem runRecord_cons (st : Storage) (r : InfractionRequest)
    (rs : List InfractionRequest) :
    runRecord st (r :: rs) =
      ((runRecord (recordInfraction st r).1 rs).1,
       (recordInfraction st r).2 :: (runRecord (recordInfraction st r).1 rs).2) := rfl

/-- Invariant of an all-accepted run: starting below the threshold and
unblocked, every accepted request adds one warning, and the final state
is blocked exactly when the accumulated warnings exceed the threshold. -/
theorem runRecord_all_accepted (s : String) (hs : s ≠ "") :
    ∀ (reqs : List InfractionRequest) (st : Storage),
      (∀ r ∈ reqs, r.studentId = s) →
      isBlockedIn st s = false →
      warningsOf st s ≤ INFRACTION_THRESHOLD →
      (∀ resp ∈ (runRecord st reqs).2, accepted resp = true) →
      warningsOf (runRecord st reqs).1 s = warningsOf st s + reqs.length ∧
      isBlockedIn (runRecord st reqs).1 s =
        decide (warningsOf st s + reqs.length > INFRACTION_THRESHOLD) := by
  intro reqs
  induction reqs with
  | nil =>
    intro st _ hb hw _
    refine ⟨by simp [runRecord_nil], ?_⟩
    rw [runRecord_nil]
    simp only [List.length_nil, Nat.add_zero]
    rw [hb]
    symm
    rw [decide_eq_false_iff_not]
    omega
  | cons r rs ih =>
    intro st htarget hb hw hacc
    have hrs : r.studentId = s := htarget r (by simp)
    have hsne : r.studentId ≠ "" := by rw [hrs]; exact hs
    have hstep := recordInfraction_of_not_blocked st r hsne (by rw [hrs]; exact hb)
    rw [hrs] at hstep
    by_cases hthr : warningsOf st s + 1 > INFRACTION_THRESHOLD
    · rw [if_pos hthr] at hstep
      have hblocked1 : isBlockedIn (recordInfraction st r).1 s = true := by
        rw [hstep]
        simp [isBlockedIn, lookupKey_setKey_self]
      cases rs with
      | nil =>
        constructor
        · rw [runRecord_cons, runRecord_nil]
          simp only [List.length_cons, List.length_nil]
          rw [hstep]
          simp [warningsOf, recordOf, lookupKey_setKey_self]
        · rw [runRecord_cons, runRecord_nil]
          simp only [List.length_cons, List.length_nil]
          rw [hblocked1]
          symm
          rw [decide_eq_true_iff]
          omega
      | cons r2 rs2 =>
        exfalso
        have hr2 : r2.studentId = s := htarget r2 (by simp)
        have hrej := recordInfraction_of_blocked (recordInfraction st r).1 r2
          (by rw [hr2]; exact hs) (by rw [hr2]; exact hblocked1)
        have hmem : (recordInfraction (recordInfraction st r).1 r2).2 ∈
            (runRecord st (r :: r2 :: rs2)).2 := by
          rw [runRecord_cons, runRecord_cons]
          simp
        have hcontra := hacc _ hmem
        rw [hrej] at hcontra
        simp [accepted] at hcontra
    · rw [if_neg hthr] at hstep
      have hb1 : isBlockedIn (recordInfraction st r).1 s = false := by
        rw [hstep]
        simpa [isBlockedIn] using hb
      have hw1 : warningsOf (recordInfraction st r).1 s = warningsOf st s + 1 := by
        rw [hstep]
        simp [warningsOf, recordOf, lookupKey_setKey_self]
      have htail : ∀ r' ∈ rs, r'.studentId = s := fun r' h => htarget r' (by simp [h])
      have hacc' : ∀ resp ∈ (runRecord (recordInfraction st r).1 rs).2,
          accepted resp = true := by
        intro resp hresp
        apply hacc
        rw [runRecord_cons]
        simp [hresp]
      have hw1le : warningsOf (recordInfraction st r).1 s ≤ INFRACTION_THRESHOLD := by
        rw [hw1]
        omega
      obtain ⟨ha, hbfin⟩ := ih (recordInfraction st r).1 htail hb1 hw1le hacc'
      constructor
      · rw [runRecord_cons]
        simp only [List.length_cons]
        rw [ha, hw1]
        omega
      · rw [runRecord_cons]
        simp only [List.length_cons]
        rw [hbfin, hw1, decide_eq_decide]
        omega

/-! ## Claim C1 -/

/-- Claim C1 fails as stated: with threshold T = 2, a sequence of three
accepted infractions against a fresh identity leaves it Blocked, although
3 does not exceed T + 1, where the claim predicts Active with 3 warnings. -/
theorem c1_counterexample :
    (∀ resp ∈ (runRecord stEmpty reqs3).2, accepted resp = true) ∧
    isBlockedIn (runRecord stEmpty reqs3).1 "s1" = true ∧
    ¬(reqs3.length > INFRACTION_THRESHOLD + 1) := by decide

/-- Claim C1 as amended: for every fresh identity and every sequence of N
accepted recordInfraction requests with configured threshold T = 2, the
identity is Blocked if and only if N > T (the block fires on the (T+1)-th
accepted infraction), and otherwise remains Active with warnings equal
to N. -/
theorem c1_fresh_escalation (s : String) (st0 : Storage)
    (reqs : List InfractionRequest)
    (hs : s ≠ "")
    (hfresh1 : lookupKey s st0.infractions = none)
    (hfresh2 : lookupKey s st0.blockedIds = none)
    (htarget : ∀ r ∈ reqs, r.studentId = s)
    (hacc : ∀ resp ∈ (runRecord st0 reqs).2, accepted resp = true) :
    (isBlockedIn (runRecord st0 reqs).1 s = true ↔
      reqs.length > INFRACTION_THRESHOLD) ∧
    (reqs.length ≤ INFRACTION_THRESHOLD →
      isBlockedIn (runRecord st0 reqs).1 s = false ∧
      warningsOf (runRecord st0 reqs).1 s = reqs.length) := by
  have hb : isBlockedIn st0 s = false := by simp [isBlockedIn, hfresh2]
  have hw : warningsOf st0 s = 0 := by simp [warningsOf, recordOf, hfresh1]
  obtain ⟨ha, hbl⟩ := runRecord_all_accepted s hs reqs st0 htarget hb
    (by rw [hw]; exact Nat.zero_le _) hacc
  rw [hw, Nat.zero_add] at ha hbl
  refine ⟨?_, ?_⟩
  · rw [hbl]
    exact ⟨fun h => of_decide_eq_true h, fun h => decide_eq_true h⟩
  · intro hlen
    refine ⟨?_, ha⟩
    rw [hbl, decide_eq_false_iff_not]
    omega

/-- Witness for the amended claim C1 at a concrete two-request run. -/
theorem c1_fresh_escalation_witness :
    (isBlockedIn (runRecord stEmpty reqs2).1 "s1" = true ↔
      reqs2.length > INFRACTION_THRESHOLD) ∧
    (reqs2.length ≤ INFRACTION_THRESHOLD →
      isBlockedIn (runRecord stEmpty reqs2).1 "s1" = false ∧
      warningsOf (runRecord stEmpty reqs2).1 "s1" = reqs2.length) :=
  c1_fresh_escalation "s1" stEmpty reqs2 (by decide) rfl rfl
    (by decide) (by decide)

/-! ## Claim C2 -/

/-- Claim C2: for every identity that is already Blocked, a further
recordInfraction request is rejected with the already-blocked reason and
the storage, hence count, warnings and events of every identity, is left
entirely unchanged. -/
theorem c2_blocked_rejected (st : Storage) (r : InfractionRequest)
    (hs : r.studentId ≠ "") (hb : isBlockedIn st r.studentId = true) :
    (recordInfraction st r).2 = RecordResponse.alreadyBlocked ∧
    (recordInfraction st r).1 = st := by
  rw [recordInfraction_of_blocked st r hs hb]
  exact ⟨rfl, rfl⟩

/-- Witness for claim C2 on a concrete blocked storage. -/
theorem c2_blocked_rejected_witness :
    (recordInfraction stBlockedOne (reqTab 5)).2 = RecordResponse.alreadyBlocked ∧
    (recordInfraction stBlockedOne (reqTab 5)).1 = stBlockedOne :=
  c2_blocked_rejected stBlockedOne (reqTab 5) (by decide) (by decide)

/-! ## Claim C3 -/

/-- Claim C3 fails as stated: on an Active identity with a recorded
infraction, unblockId reports success but is not a no-op, because it
still resets the stored count and warnings to zero. -/
theorem c3_counterexample :
    isBlockedIn stActiveOne "s1" = false ∧
    (unblockId stActiveOne "s1").2 = true ∧
    (unblockId stActiveOne "s1").1 ≠ stActiveOne := by decide

/-- Claim C3 as amended: for every identity, unblockId reports success,
deletes any BlockRecord, and leaves the identity Active with count 0 and
warnings 0; on an Active identity it is a no-op only when the identity
has no infraction record, and otherwise still zeroes the stored
counters. -/
theorem c3_unblock (st : Storage) (s : String) :
    (unblockId st s).2 = true ∧
    isBlockedIn (unblockId st s).1 s = false ∧
    countOf (unblockId st s).1 s = 0 ∧
    warningsOf (unblockId st s).1 s = 0 ∧
    ((lookupKey s st.infractions = none ∧ lookupKey s st.blockedIds = none) →
      (unblockId st s).1 = st) := by
  refine ⟨rfl, ?_, ?_, ?_, ?_⟩
  · simp [unblockId, isBlockedIn, lookupKey_eraseKey_self]
  · rcases hlk : lookupKey s st.infractions with _ | rec0
    · simp [unblockId, countOf, recordOf, hlk]
    · simp [unblockId, countOf, recordOf, hlk, lookupKey_setKey_self]
  · rcases hlk : lookupKey s st.infractions with _ | rec0
    · simp [unblockId, warningsOf, recordOf, hlk]
    · simp [unblockId, warningsOf, recordOf, hlk, lookupKey_setKey_self]
  · rintro ⟨h1, h2⟩
    simp [unblockId, h1, eraseKey_of_lookupKey_none _ _ h2]

/-- Witness for the amended claim C3 on a concrete blocked storage. -/
theorem c3_unblock_witness :
    (unblockId stBlockedOne "s1").2 = true ∧
    isBlockedIn (unblockId stBlockedOne "s1").1 "s1" = false ∧
    countOf (unblockId stBlockedOne "s1").1 "s1" = 0 ∧
    warningsOf (unblockId stBlockedOne "s1").1 "s1" = 0 ∧
    ((lookupKey "s1" stBlockedOne.infractions = none ∧
      lookupKey "s1" stBlockedOne.blockedIds = none) →
      (unblockId stBlockedOne "s1").1 = stBlockedOne) :=
  c3_unblock stBlockedOne "s1"

/-! ## Claim C4 -/

/-- Claim C4 fails as stated only in the reason string: the BlockRecord
created on the block transition carries the capitalized reason
"Exceeded infraction threshold", not "exceeded infraction threshold". -/
theorem c4_counterexample :
    ((lookupKey "s1" (runRecord stEmpty reqs3).1.blockedIds).map
      BlockRecord.reason).isSome = true ∧
    ((lookupKey "s1" (runRecord stEmpty reqs3).1.blockedIds).map
      BlockRecord.reason) ≠ some ("exceeded infraction threshold") := by decide

/-- Claim C4 as amended: on the block transition, exactly one BlockRecord
is created for the identity, with reason "Exceeded infraction threshold",
totalInfractions equal to the identity count at block time, and
lastEvents the 5 most recent events including the one just recorded; the
response indicates blocked with that reason. -/
theorem c4_block_record (st : Storage) (r : InfractionRequest)
    (hs : r.studentId ≠ "")
    (hb : isBlockedIn st r.studentId = false)
    (hthr : warningsOf st r.studentId + 1 > INFRACTION_THRESHOLD) :
    (recordInfraction st r).1.blockedIds =
      setKey r.studentId
        ⟨r.now, "Exceeded infraction threshold", countOf st r.studentId + 1,
         lastN 5 (eventsOf st r.studentId ++ [mkEvent r])⟩ st.blockedIds ∧
    lookupKey r.studentId (recordInfraction st r).1.blockedIds =
      some ⟨r.now, "Exceeded infraction threshold", countOf st r.studentId + 1,
        lastN 5 (eventsOf st r.studentId ++ [mkEvent r])⟩ ∧
    countOf (recordInfraction st r).1 r.studentId = countOf st r.studentId + 1 ∧
    (recordInfraction st r).2 =
      RecordResponse.blocked (countOf st r.studentId + 1)
        (warningsOf st r.studentId + 1)
        (infractionInfo r.infractionType).2 ("Exceeded infraction threshold") := by
  have hstep := recordInfraction_of_not_blocked st r hs hb
  rw [if_pos hthr] at hstep
  rw [hstep]
  refine ⟨rfl, ?_, ?_, rfl⟩
  · exact lookupKey_setKey_self _ _ _
  · simp [countOf, recordOf, lookupKey_setKey_self]

/-- Witness for the amended claim C4 on a storage one warning short. -/
theorem c4_block_record_witness :
    (recordInfraction stWarn2 (reqTab 3)).1.blockedIds =
      setKey "s1"
        ⟨3, "Exceeded infraction threshold", countOf stWarn2 "s1" + 1,
         lastN 5 (eventsOf stWarn2 "s1" ++ [mkEvent (reqTab 3)])⟩
        stWarn2.blockedIds ∧
    lookupKey "s1" (recordInfraction stWarn2 (reqTab 3)).1.blockedIds =
      some ⟨3, "Exceeded infraction threshold", countOf stWarn2 "s1" + 1,
        lastN 5 (eventsOf stWarn2 "s1" ++ [mkEvent (reqTab 3)])⟩ ∧
    countOf (recordInfraction stWarn2 (reqTab 3)).1 "s1" =
      countOf stWarn2 "s1" + 1 ∧
    (recordInfraction stWarn2 (reqTab 3)).2 =
      RecordResponse.blocked (countOf stWarn2 "s1" + 1)
        (warningsOf stWarn2 "s1" + 1)
        (infractionInfo "TAB_SWITCH").2 ("Exceeded infraction threshold") :=
  c4_block_record stWarn2 (reqTab 3) (by decide) (by decide) (by decide)

/-! ## Claim C10 -/

/-- Claim C10: unblockId keeps the event history of the target identity
and leaves the records of every other identity untouched. -/
theorem c10_unblock_frame (st : Storage) (s : String) :
    eventsOf (unblockId st s).1 s = eventsOf st s ∧
    ∀ s', s' ≠ s →
      lookupKey s' (unblockId st s).1.infractions =
        lookupKey s' st.infractions ∧
      lookupKey s' (unblockId st s).1.blockedIds =
        lookupKey s' st.blockedIds := by
  constructor
  · rcases hlk : lookupKey s st.infractions with _ | rec0
    · simp [unblockId, eventsOf, recordOf, hlk]
    · simp [unblockId, eventsOf, recordOf, hlk, lookupKey_setKey_self]
  · intro s' hne
    constructor
    · rcases hlk : lookupKey s st.infractions with _ | rec0
      · simp [unblockId, hlk]
      · simp [unblockId, hlk, lookupKey_setKey_ne _ _ _ _ hne]
    · simp [unblockId, lookupKey_eraseKey_ne _ _ _ hne]

/-- Witness for claim C10: unblocking s1 keeps the s1 events and the s2
records in a concrete storage. -/
theorem c10_unblock_frame_witness :
    eventsOf (unblockId stBlockedOne "s1").1 "s1" = eventsOf stBlockedOne "s1" ∧
    (lookupKey "s2" (unblockId stBlockedOne "s1").1.infractions =
      lookupKey "s2" stBlockedOne.infractions ∧
     lookupKey "s2" (unblockId stBlockedOne "s1").1.blockedIds =
      lookupKey "s2" stBlockedOne.blockedIds) :=
  ⟨(c10_unblock_frame stBlockedOne "s1").1,
   (c10_unblock_frame stBlockedOne "s1").2 "s2" (by decide)⟩

/-! ## Claim C5 -/

theorem contentInfractionRun_nil (last : Nat) :
    contentInfractionRun last [] = (0, []) := rfl

theorem contentInfractionRun_cons (last t : Nat) (ts : List Nat) :
    contentInfractionRun last (t :: ts) =
      ((contentInfractionRun (showWarningStep last t).2 ts).1 + 1,
       if (showWarningStep last t).1 then
         t :: (contentInfractionRun (showWarningStep last t).2 ts).2
       else (contentInfractionRun (showWarningStep last t).2 ts).2) := rfl

/-- Every displayed notice comes at least 1000 ms after the stored
last-warning time, and displayed notices are pairwise at least 1000 ms
apart. -/
theorem contentRun_displays_spaced (ts : List Nat) :
    ∀ last : Nat,
      (∀ d ∈ (contentInfractionRun last ts).2, last + 1000 ≤ d) ∧
      (contentInfractionRun last ts).2.Pairwise (fun a b => a + 1000 ≤ b) := by
  induction ts with
  | nil =>
    intro last
    simp [contentInfractionRun_nil]
  | cons t ts ih =>
    intro last
    by_cases h : t - last < 1000
    · have hstep : showWarningStep last t = (false, last) := by
        simp [showWarningStep, h]
      rw [contentInfractionRun_cons]
      simp only [hstep]
      simpa using ih last
    · have hstep : showWarningStep last t = (true, t) := by
        simp [showWarningStep, h]
      have hlt : last + 1000 ≤ t := by omega
      obtain ⟨hall, hpair⟩ := ih t
      rw [contentInfractionRun_cons]
      simp only [hstep, if_pos]
      constructor
      · intro d hd
        rcases List.mem_cons.mp hd with rfl | hd
        · exact hlt
        · have := hall d hd
          omega
      · refine List.pairwise_cons.mpr ⟨?_, hpair⟩
        intro b hb
        have := hall b hb
        omega

/-- Claim C5: warning display is rate-limited to at most one per second,
while the underlying recordInfraction request is still submitted for
every infraction: over any sequence of infraction times, the number of
submitted requests equals the number of infractions, and the displayed
notices are pairwise at least 1000 ms apart. -/
theorem c5_rate_limited_display (last : Nat) (ts : List Nat) :
    (contentInfractionRun last ts).1 = ts.length ∧
    (contentInfractionRun last ts).2.Pairwise (fun a b => a + 1000 ≤ b) := by
  refine ⟨?_, (contentRun_displays_spaced ts last).2⟩
  induction ts generalizing last with
  | nil => rfl
  | cons t ts ih =>
    rw [contentInfractionRun_cons]
    simp [ih]

/-! ## Claim C6 -/

/-- Claim C6 fails as stated in the sampled region: the code samples a
centered square of side min(width, height)/2, using min/4 as the
half-side.  On a concrete 8 by 8 frame whose only skin pixels lie outside
a centered square of side min/4 = 2 but inside the code region, a
classifier sampling the claimed side-min/4 square reports no face while
the code reports a face. -/
theorem c6_counterexample :
    specNoFaceSide ceFaceFrame (min ceFaceFrame.width ceFaceFrame.height / 4) =
      true ∧
    (!detectFaceInImageData ceFaceFrame) = false := by decide

/-- Claim C6 as amended: the face-presence heuristic samples a square
region centered on the frame with side min(width, height)/2 (half-side
min/4), classifies a pixel as skin-like iff R>95, G>40, B>20, R>G, R>B
and the absolute difference of R and G exceeds 15, counts a frame as no
face iff the skin fraction over the sampled region is at most 0.10, and
emits exactly one NO_FACE event after exactly 3 consecutive no-face
frames, resetting the counter to 0 on emission and on any intervening
face-present frame. -/
theorem c6_face_heuristic :
    (∀ fr : Frame, min fr.width fr.height % 4 = 0 →
      (!detectFaceInImageData fr) =
        specNoFaceSide fr (min fr.width fr.height / 2)) ∧
    (∀ r g b : Nat, skinLike r g b = true ↔
      (r > 95 ∧ g > 40 ∧ b > 20 ∧ r > g ∧ r > b ∧ max r g - min r g > 15)) ∧
    (∀ (c : Nat) (fr : Frame), detectFaceInImageData fr = true →
      faceStep c fr = (0, false)) ∧
    (∀ (c : Nat) (fr : Frame), detectFaceInImageData fr = false → c + 1 < 3 →
      faceStep c fr = (c + 1, false)) ∧
    (∀ frames : List Frame, frames.length = 3 →
      (∀ fr ∈ frames, detectFaceInImageData fr = false) →
      faceRun 0 frames = (0, 1)) := by
  refine ⟨?_, ?_, ?_, ?_, ?_⟩
  · intro fr _
    simp only [detectFaceInImageData, specNoFaceSide, Nat.div_div_eq_div_mul]
    rw [← decide_not]
    exact decide_eq_decide.mpr not_lt
  · intro r g b
    rw [skinLike, decide_eq_true_eq]
    by_cases h : g ≤ r
    · rw [if_pos h, max_eq_left h, min_eq_right h]
    · have h' : r ≤ g := Nat.le_of_not_le h
      rw [if_neg h, max_eq_right h', min_eq_left h']
  · intro c fr h
    simp [faceStep, h]
  · intro c fr h hc
    rw [faceStep, if_neg (by simp [h]), if_neg (by omega)]
  · intro frames hlen hall
    rcases frames with _ | ⟨f1, _ | ⟨f2, _ | ⟨f3, rest⟩⟩⟩ <;> simp at hlen
    subst hlen
    have h1 : detectFaceInImageData f1 = false := hall f1 (by simp)
    have h2 : detectFaceInImageData f2 = false := hall f2 (by simp)
    have h3 : detectFaceInImageData f3 = false := hall f3 (by simp)
    simp [faceRun, faceStep, h1, h2, h3]

/-- Witness for the amended claim C6: the region equivalence on a blank
frame and one NO_FACE emission on three consecutive blank frames. -/
theorem c6_face_heuristic_witness :
    (!detectFaceInImageData blankFrame) =
      specNoFaceSide blankFrame (min blankFrame.width blankFrame.height / 2) ∧
    faceRun 0 [blankFrame, blankFrame, blankFrame] = (0, 1) :=
  ⟨c6_face_heuristic.1 blankFrame (by decide),
   c6_face_heuristic.2.2.2.2 [blankFrame, blankFrame, blankFrame] rfl (by
    intro fr hfr
    simp only [List.mem_cons, List.not_mem_nil, or_false] at hfr
    rcases hfr with rfl | rfl | rfl <;> decide)⟩

/-! ## Claim C7 -/

set_option maxRecDepth 8000 in
/-- Claim C7: the audio heuristic increments its consecutive-hit counter
on a buffer whose mean magnitude exceeds 30, emits exactly one
AUDIO_DETECTED event on the third consecutive hit and then resets, resets
the counter on any below-threshold buffer, and over a concrete run an
intervening quiet buffer suppresses the emission.  Mean above 30 over the
128 bins is the exact sum comparison in `audioLoud`. -/
theorem c7_audio_heuristic :
    (∀ (c : Nat) (buf : List Nat), audioLoud buf = true → c + 1 < 3 →
      audioStep c buf = (c + 1, false)) ∧
    (∀ (c : Nat) (buf : List Nat), audioLoud buf = true → c + 1 ≥ 3 →
      audioStep c buf = (0, true)) ∧
    (∀ (c : Nat) (buf : List Nat), audioLoud buf = false →
      audioStep c buf = (0, false)) ∧
    (∀ bufs : List (List Nat), bufs.length = 3 →
      (∀ b ∈ bufs, b.sum = 31 * 128) → audioRun 0 bufs = (0, 1)) ∧
    audioRun 0 [buf31, buf31, buf29, buf31, buf31] = (2, 0) := by
  refine ⟨?_, ?_, ?_, ?_, ?_⟩
  · intro c buf h hc
    rw [audioStep, if_pos h, if_neg (by omega)]
  · intro c buf h hc
    rw [audioStep, if_pos h, if_pos hc]
  · intro c buf h
    rw [audioStep, if_neg (by simp [h])]
  · intro bufs hlen hall
    rcases bufs with _ | ⟨b1, _ | ⟨b2, _ | ⟨b3, rest⟩⟩⟩ <;> simp at hlen
    subst hlen
    have hl1 : audioLoud b1 = true := by
      rw [audioLoud, decide_eq_true_eq, hall b1 (by simp)]
      omega
    have hl2 : audioLoud b2 = true := by
      rw [audioLoud, decide_eq_true_eq, hall b2 (by simp)]
      omega
    have hl3 : audioLoud b3 = true := by
      rw [audioLoud, decide_eq_true_eq, hall b3 (by simp)]
      omega
    simp [audioRun, audioStep, hl1, hl2, hl3]
  · decide

set_option maxRecDepth 8000 in
/-- Witness for claim C7 at concrete buffers of mean 31 and 29. -/
theorem c7_audio_heuristic_witness :
    audioStep 0 buf31 = (1, false) ∧
    audioStep 0 buf29 = (0, false) ∧
    audioRun 0 [buf31, buf31, buf31] = (0, 1) :=
  ⟨c7_audio_heuristic.1 0 buf31 (by decide) (by decide),
   c7_audio_heuristic.2.2.1 0 buf29 (by decide),
   c7_audio_heuristic.2.2.2.1 [buf31, buf31, buf31] rfl (by
     intro b hb
     simp only [List.mem_cons, List.not_mem_nil, or_false] at hb
     rcases hb with rfl | rfl | rfl <;> decide)⟩

/-! ## Claim C8 -/

/-- Claim C8: detectMultipleMonitors evaluates its signals in priority
order and the first positive signal short-circuits: an aspect ratio above
2.5 returns detected with the ultra-wide reason regardless of the other
inputs; when the aspect ratio is not above 2.5, the window position is
within the primary screen bounds plus a 100-unit margin, no
extended-display flag is set, and no screen enumeration reports more
than one screen, the result is a non-detection. -/
theorem c8_monitor_detection :
    (∀ env : MonitorEnv, env.throws = false →
      2 * env.screenWidth > 5 * env.screenHeight →
      detectMultipleMonitors env =
        ⟨true, some ("Ultra-wide display detected (possible multiple monitors)")⟩) ∧
    (∀ env : MonitorEnv, env.throws = false →
      2 * env.screenWidth ≤ 5 * env.screenHeight →
      -100 ≤ env.screenX → -100 ≤ env.screenY →
      env.screenX ≤ (env.screenWidth : Int) + 100 →
      env.screenY ≤ (env.screenHeight : Int) + 100 →
      (env.hasIsExtended && env.isExtended) = false →
      (∀ n, env.screenDetails = Except.ok n → n ≤ 1) →
      detectMultipleMonitors env = ⟨false, none⟩) := by
  constructor
  · intro env ht ha
    rw [detectMultipleMonitors, if_neg (by simp [ht]),
      detectMultipleMonitorsBody, if_pos ha]
  · intro env ht ha hx1 hy1 hx2 hy2 hext hscr
    rw [detectMultipleMonitors, if_neg (by simp [ht]),
      detectMultipleMonitorsBody, if_neg (by omega),
      if_neg (by rintro (h | h | h | h) <;> omega), if_neg (by simp [hext])]
    by_cases hgsd : env.hasGetScreenDetails = true
    · rw [if_pos hgsd]
      cases hsd : env.screenDetails with
      | ok n =>
        have hn : n ≤ 1 := hscr n hsd
        simp only [hsd]
        rw [if_neg (by omega)]
      | error e => simp only [hsd]
    · rw [if_neg hgsd]

/-- Witness for claim C8 at aspect 3.0 and at aspect 1.78 with in-bounds
position, no flags, and one enumerated screen. -/
theorem c8_monitor_detection_witness :
    detectMultipleMonitors envUltraWide =
      ⟨true, some ("Ultra-wide display detected (possible multiple monitors)")⟩ ∧
    detectMultipleMonitors envNormal = ⟨false, none⟩ :=
  ⟨c8_monitor_detection.1 envUltraWide rfl (by decide),
   c8_monitor_detection.2 envNormal rfl (by decide) (by decide) (by decide)
     (by decide) (by decide) rfl (by
       intro n h
       simp only [envNormal] at h
       injection h with h
       omega)⟩

/-! ## Claim C9 -/

/-- Claim C9: detection-pipeline errors fail open: an exception from the
detectMultipleMonitors body is caught and yields a non-detection with no
infraction recorded by the periodic check; an exception from the screen
enumeration is swallowed by the inner catch and yields a non-detection;
and a failure while building the audio-analysis graph silently disables
audio monitoring, producing no AUDIO_DETECTED infractions. -/
theorem c9_fail_open :
    (∀ env : MonitorEnv, env.throws = true →
      detectMultipleMonitors env = ⟨false, none⟩) ∧
    (∀ env : MonitorEnv, env.throws = true →
      monitorCheckInfractions env = []) ∧
    (∀ env : MonitorEnv, env.throws = false → env.hasGetScreenDetails = true →
      2 * env.screenWidth ≤ 5 * env.screenHeight →
      -100 ≤ env.screenX → -100 ≤ env.screenY →
      env.screenX ≤ (env.screenWidth : Int) + 100 →
      env.screenY ≤ (env.screenHeight : Int) + 100 →
      (env.hasIsExtended && env.isExtended) = false →
      env.screenDetails = Except.error () →
      detectMultipleMonitors env = ⟨false, none⟩) ∧
    (∀ (hasTrack : Bool) (bufs : List (List Nat)),
      audioMonitoringEvents hasTrack true bufs = 0) := by
  refine ⟨?_, ?_, ?_, ?_⟩
  · intro env ht
    rw [detectMultipleMonitors, if_pos ht]
  · intro env ht
    simp [monitorCheckInfractions, detectMultipleMonitors, ht]
  · intro env ht hgsd ha hx1 hy1 hx2 hy2 hext hsd
    rw [detectMultipleMonitors, if_neg (by simp [ht]),
      detectMultipleMonitorsBody, if_neg (by omega),
      if_neg (by rintro (h | h | h | h) <;> omega), if_neg (by simp [hext]),
      if_pos hgsd]
    simp only [hsd]
  · intro hasTrack bufs
    cases hasTrack <;> rfl

/-- Witness for claim C9 on concrete throwing environments. -/
theorem c9_fail_open_witness :
    detectMultipleMonitors envThrowing = ⟨false, none⟩ ∧
    monitorCheckInfractions envThrowing = [] ∧
    detectMultipleMonitors envEnumThrows = ⟨false, none⟩ ∧
    audioMonitoringEvents true true [buf31, buf31, buf31] = 0 :=
  ⟨c9_fail_open.1 envThrowing rfl,
   c9_fail_open.2.1 envThrowing rfl,
   c9_fail_open.2.2.1 envEnumThrows rfl rfl (by decide) (by decide) (by decide)
     (by decide) (by decide) rfl rfl,
   c9_fail_open.2.2.2 true [buf31, buf31, buf31]⟩

